import Mathlib

/-!
Shallow embedding of the word2ipa application core (src/main.rs).

The embedded logic is: the word-to-IPA resolution pipeline `word_to_ipa`
(lines 143-165), the `TextChanged` branch of `Word2ipaModel::update`
(lines 113-140), the IPA symbol catalog loader `load_ipa_entries`
(lines 251-265), the catalog part of `IpaDictionaryModel::init`
(lines 209-246) and its example-pair rendering loop (lines 232-239).

External fallible stages (gio resource lookup, UTF-8 decoding, serde JSON
parsing) are embedded as abstract outcome values carrying either the parsed
data or the message of the underlying error, since the Rust code only ever
interpolates that message into its own error strings. Rust `HashMap` blocks
are embedded as association lists with unique keys, probed with
`List.lookup`. Rust `str::to_lowercase` is embedded as per-character simple
case lowering, which agrees with it on the ASCII alphabet used by the
dictionary and the claims.
-/

deriving instance DecidableEq for Except

/-- Rust `word.to_lowercase()` (line 157), embedded as per-character simple
case lowering of the underlying character list. -/
def rustToLowercase (s : String) : String :=
  ⟨s.data.map Char.toLower⟩

/-- Rust struct `Dictionary` (lines 38-41): an ordered sequence of entry
blocks, each block a map from word to IPA transcription. Each `HashMap`
block is embedded as an association list; key uniqueness, which `HashMap`
guarantees, appears as a `Nodup` hypothesis where a theorem needs it. -/
structure Dictionary where
  entries : List (List (String × String))
deriving DecidableEq

/-- Outcome of the three fallible external stages at the top of
`word_to_ipa` (lines 144-154): gio resource lookup, UTF-8 decoding and
serde JSON parsing. Each failing case carries the message of the underlying
error `e` that the Rust code interpolates with `format!`. -/
inductive DictLoadOutcome where
  | resourceError (msg : String)
  | utf8Error (msg : String)
  | jsonError (msg : String)
  | parsed (dict : Dictionary)
deriving DecidableEq

/-- Lines 144-154 of `word_to_ipa`: the load / decode / parse pipeline,
with the exact error strings the Rust code builds via `map_err`. -/
def loadDictionary : DictLoadOutcome → Except String Dictionary
  | .resourceError msg => .error ("Failed to load resource: " ++ msg)
  | .utf8Error msg => .error ("Invalid UTF-8 in resource: " ++ msg)
  | .jsonError msg => .error ("Failed to parse JSON: " ++ msg)
  | .parsed dict => .ok dict

/-- Line 160: the not-found error string `format!("Word \x7b\x7d not found.", word)`
with the word quoted in single quotes, built from the original, non-lowercased
query. -/
def notFoundMsg (word : String) : String :=
  "Word \x27" ++ word ++ "\x27 not found."

/-- Lines 157-161: probing one entry block (the mapping) with the lowercased
query; a hit returns the stored transcription, a miss returns the not-found
error built from the original query. This is the resolver of spec section 4.2
applied to a single mapping. -/
def resolve (word : String) (mapping : List (String × String)) : Except String String :=
  match List.lookup (rustToLowercase word) mapping with
  | some ipa => .ok ipa
  | none => .error (notFoundMsg word)

/-- Lines 156-164: `dictionary.entries.get(0)` selects the first entry block
when it exists; a dictionary with zero entry blocks yields the
`Dictionary format error.` string. -/
def resolveFirstBlock (dict : Dictionary) (word : String) : Except String String :=
  match dict.entries.head? with
  | some first_map => resolve word first_map
  | none => .error "Dictionary format error."

/-- Lines 143-165, `word_to_ipa`: run the load pipeline (whose errors the
question-mark operator propagates unchanged), then resolve the query against
the first entry block of the parsed dictionary. -/
def word_to_ipa (env : DictLoadOutcome) (word : String) : Except String String :=
  match loadDictionary env with
  | .error e => .error e
  | .ok dict => resolveFirstBlock dict word

/-- Line 102 and line 118: the neutral placeholder result string. -/
def placeholderResult : String :=
  "IPA translation will appear here."

/-- Lines 43-48, struct `Word2ipaModel`: the entry buffer text, the displayed
result string, the history list of (queried word, transcription) pairs, and
the history widget rows, embedded as the list of (title, subtitle) pairs
added to the `PreferencesGroup` (title is the transcription, subtitle the
word, per lines 128-129). -/
structure Word2ipaModel where
  buffer : String
  ipa_result : String
  history : List (String × String)
  group : List (String × String)
deriving DecidableEq

/-- Lines 113-140, the `Msg::TextChanged` branch of `Word2ipaModel::update`.
Returns the updated model together with the list of diagnostics written with
`eprintln!`. Rust `word.is_empty()` is byte-length zero, which for a `String`
is equality with the empty string. On success the code pushes
`(word, ipa)` onto the history and adds a row titled by the transcription
with the word as subtitle; on error it only sets the result string to
`"Error: ..."` and emits a diagnostic. -/
def update (env : DictLoadOutcome) (m : Word2ipaModel) : Word2ipaModel × List String :=
  let word := m.buffer
  if word = "" then
    ({ m with ipa_result := placeholderResult }, [])
  else
    match word_to_ipa env word with
    | .ok ipa =>
        ({ m with
            ipa_result := ipa,
            history := m.history ++ [(word, ipa)],
            group := m.group ++ [(ipa, word)] }, [])
    | .error err =>
        ({ m with ipa_result := "Error: " ++ err }, ["error: " ++ err])

/-- Lines 177-184, struct `IpaEntry`: one IPA symbol description with its
parallel example lists. -/
structure IpaEntry where
  symbol : String
  sound : String
  description : String
  examples : List String
  ipa_examples : List String
deriving DecidableEq

/-- Outcome of the three fallible external stages of `load_ipa_entries`
(lines 252-262), analogous to `DictLoadOutcome`. -/
inductive CatalogLoadOutcome where
  | resourceError (msg : String)
  | utf8Error (msg : String)
  | jsonError (msg : String)
  | parsed (entries : List IpaEntry)
deriving DecidableEq

/-- Lines 251-265, `load_ipa_entries`: the catalog load pipeline with its
exact error strings; a successfully parsed list, empty or not, is returned
as is. -/
def load_ipa_entries : CatalogLoadOutcome → Except String (List IpaEntry)
  | .resourceError msg => .error ("Failed to load IPA resource: " ++ msg)
  | .utf8Error msg => .error ("Invalid UTF-8 in IPA resource: " ++ msg)
  | .jsonError msg => .error ("Failed to parse IPA JSON: " ++ msg)
  | .parsed entries => .ok entries

/-- Lines 186-188, struct `IpaDictionaryModel`. -/
structure IpaDictionaryModel where
  entries : List IpaEntry
deriving DecidableEq

/-- Lines 214-222 of `IpaDictionaryModel::init`: the entries come from
`load_ipa_entries`, degrading to the empty list on any load error; the
second component is the list of diagnostics written with `eprintln!`. The
embedding is a total function over every load outcome: no outcome aborts. -/
def ipaDictionaryInit (env : CatalogLoadOutcome) : IpaDictionaryModel × List String :=
  match load_ipa_entries env with
  | .ok entries => (⟨entries⟩, [])
  | .error err => (⟨[]⟩, ["Error loading IPA dictionary: " ++ err])

/-- Lines 232-239 of `IpaDictionaryModel::init`: the example labels rendered
for one catalog entry, one label per element of
`entry.examples.iter().zip(entry.ipa_examples.iter())`, in iteration
order, each formatted as a bullet followed by the word and its
transcription. -/
def renderExampleLabels (entry : IpaEntry) : List String :=
  (entry.examples.zip entry.ipa_examples).map (fun p => "• " ++ p.1 ++ " " ++ p.2)

/-- Reading of the claim that the handler short-circuits on input that is
empty after trimming: the trimmed text is empty exactly when every character
of the raw text is whitespace. -/
def allWhitespace (s : String) : Bool :=
  s.data.all Char.isWhitespace

/-- Helper: in an association list whose keys are pairwise distinct, as the
keys of a Rust `HashMap` are, membership of a pair determines the lookup
result. -/
theorem lookup_of_mem_nodup {w ipa : String} {l : List (String × String)}
    (hnd : (l.map Prod.fst).Nodup) (hmem : (w, ipa) ∈ l) :
    List.lookup w l = some ipa := by
  induction l with
  | nil => cases hmem
  | cons hd tl ih =>
    obtain ⟨k, v⟩ := hd
    rw [List.map_cons, List.nodup_cons] at hnd
    rcases List.mem_cons.mp hmem with h | h
    · cases h
      simp [List.lookup]
    · have hwk : (w == k) = false := by
        rw [beq_eq_false_iff_ne]
        intro hwk
        exact hnd.1 (hwk ▸ List.mem_map.mpr ⟨(w, ipa), h, rfl⟩)
      simp only [List.lookup, hwk]
      exact ih hnd.2 h

/-- Helper: the not-found message determines the query it was built from. -/
theorem notFoundMsg_inj (w1 w2 : String) (h : notFoundMsg w1 = notFoundMsg w2) :
    w1 = w2 := by
  unfold notFoundMsg at h
  have h2 := congrArg String.data h
  simp only [String.data_append] at h2
  exact String.ext (List.append_cancel_left (List.append_cancel_right h2))

/-- Helper: a string whose first character differs from the first character
of a nonempty string q is not q followed by anything. -/
theorem ne_append_of_head_ne {p q : String} (m : String)
    (h : p.data.head? ≠ q.data.head?) (hq : q.data ≠ []) : p ≠ q ++ m := by
  intro he
  apply h
  rw [he, String.data_append, List.head?_append]
  cases hq2 : q.data with
  | nil => exact absurd hq2 hq
  | cons a t => simp

/-- Claim C1: for every word w that is a key of the loaded dictionary first
entry block (whose keys, per the data-model invariant, are lowercase and,
being `HashMap` keys, pairwise distinct), resolving the lowercase form of w
returns success with exactly the transcription stored for that key. -/
theorem hit_returns_stored_transcription (dict : Dictionary)
    (block : List (String × String)) (w ipa : String)
    (hb : dict.entries.head? = some block)
    (hnd : (block.map Prod.fst).Nodup)
    (hkeys : ∀ p ∈ block, rustToLowercase p.1 = p.1)
    (hmem : (w, ipa) ∈ block) :
    word_to_ipa (.parsed dict) (rustToLowercase w) = .ok ipa := by
  have hkey : rustToLowercase w = w := hkeys (w, ipa) hmem
  have hlook : List.lookup w block = some ipa := lookup_of_mem_nodup hnd hmem
  simp [word_to_ipa, loadDictionary, resolveFirstBlock, hb, resolve, hkey, hlook]

/-- Claim C1 witness: the concrete dictionary of the spec scenario. -/
theorem hit_returns_stored_transcription_witness :
    word_to_ipa (.parsed ⟨[[("hello", "h ə l oʊ")]]⟩) (rustToLowercase "hello") =
      .ok "h ə l oʊ" :=
  hit_returns_stored_transcription ⟨[[("hello", "h ə l oʊ")]]⟩
    [("hello", "h ə l oʊ")] "hello" "h ə l oʊ" rfl (by decide) (by decide) (by decide)

/-- Claim C2: for every query word whose lowercased form is not a key of the
first entry block, resolution returns the word-not-found error, and that
error is built from the original, non-lowercased query, which it determines
uniquely. -/
theorem miss_returns_not_found_with_original (dict : Dictionary)
    (block : List (String × String)) (w : String)
    (hb : dict.entries.head? = some block)
    (hmiss : List.lookup (rustToLowercase w) block = none) :
    word_to_ipa (.parsed dict) w = .error (notFoundMsg w) ∧
      ∀ w1 w2 : String, notFoundMsg w1 = notFoundMsg w2 → w1 = w2 := by
  constructor
  · simp [word_to_ipa, loadDictionary, resolveFirstBlock, hb, resolve, hmiss]
  · exact notFoundMsg_inj

/-- Claim C2 witness: the concrete miss scenario of the spec, with a
non-lowercase original query appearing verbatim in the error. -/
theorem miss_returns_not_found_with_original_witness :
    word_to_ipa (.parsed ⟨[[("hello", "h ə l oʊ")]]⟩) "Goodbye" =
      .error (notFoundMsg "Goodbye") :=
  (miss_returns_not_found_with_original ⟨[[("hello", "h ə l oʊ")]]⟩
    [("hello", "h ə l oʊ")] "Goodbye" rfl (by decide)).1

/-- Claim C3 counterexample: two case variants of the same word can resolve
to different results when the word misses the mapping, because the
not-found error embeds the original spelling; so resolution of case
variants is not unconditionally equal, contrary to the general half of the
claim. -/
theorem case_variants_can_differ_on_miss :
    rustToLowercase "A" = rustToLowercase "a" ∧ resolve "A" [] ≠ resolve "a" [] := by
  decide

/-- Claim C3 as amended: resolution is case-insensitive on hits: whenever
the shared lowercase form of two case variants is a key of the mapping, the
two resolve to the same result; in particular the three spellings of cat
agree on every mapping with key cat. On misses the results differ only in
the spelling embedded in the error. -/
theorem resolve_case_insensitive_on_hit :
    (∀ mapping : List (String × String), (List.lookup "cat" mapping).isSome = true →
        resolve "Cat" mapping = resolve "cat" mapping ∧
          resolve "CAT" mapping = resolve "cat" mapping) ∧
    (∀ (w1 w2 : String) (mapping : List (String × String)),
        rustToLowercase w1 = rustToLowercase w2 →
        (List.lookup (rustToLowercase w1) mapping).isSome = true →
        resolve w1 mapping = resolve w2 mapping) := by
  have key : ∀ (w1 w2 : String) (mapping : List (String × String)),
      rustToLowercase w1 = rustToLowercase w2 →
      (List.lookup (rustToLowercase w1) mapping).isSome = true →
      resolve w1 mapping = resolve w2 mapping := by
    intro w1 w2 mapping hlc hsome
    obtain ⟨ipa, hipa⟩ := Option.isSome_iff_exists.mp hsome
    simp only [resolve, ← hlc, hipa]
  constructor
  · intro mapping hsome
    have h1 : rustToLowercase "Cat" = rustToLowercase "cat" := by decide
    have h2 : rustToLowercase "CAT" = rustToLowercase "cat" := by decide
    have hc : (rustToLowercase "cat") = "cat" := by decide
    refine ⟨key "Cat" "cat" mapping h1 ?_, key "CAT" "cat" mapping h2 ?_⟩
    · rw [h1, hc]; exact hsome
    · rw [h2, hc]; exact hsome
  · exact key

/-- Claim C3 witness: concrete hits for the cat triple and for another
pair of case variants. -/
theorem resolve_case_insensitive_on_hit_witness :
    resolve "Cat" [("cat", "k æ t")] = resolve "cat" [("cat", "k æ t")] ∧
    resolve "GoOdByE" [("goodbye", "g")] = resolve "goodbye" [("goodbye", "g")] :=
  ⟨(resolve_case_insensitive_on_hit.1 [("cat", "k æ t")] (by decide)).1,
    resolve_case_insensitive_on_hit.2 "GoOdByE" "goodbye" [("goodbye", "g")]
      (by decide) (by decide)⟩

/-- Claim C4 counterexample: the handler does not trim. A buffer holding a
single space is empty after trimming (every character is whitespace), yet
the handler does not return the placeholder: it passes the space through to
the resolver, whose not-found error for the one-space query is displayed. -/
theorem whitespace_input_not_short_circuited :
    allWhitespace " " = true ∧
    (update (.parsed ⟨[[("hello", "h ə l oʊ")]]⟩) ⟨" ", "", [], []⟩).1.ipa_result =
      "Error: " ++ notFoundMsg " " ∧
    (update (.parsed ⟨[[("hello", "h ə l oʊ")]]⟩) ⟨" ", "", [], []⟩).1 ≠
      { buffer := " ", ipa_result := placeholderResult, history := [],
        group := ([] : List (String × String)) } := by
  decide

/-- Claim C4 as amended: the handler checks the raw buffer text for
emptiness without trimming; when the raw text is exactly empty it returns
immediately with the neutral placeholder and no other change, never
reaching the resolver call, while every nonempty text (even all-whitespace)
is passed to the resolver and the displayed result is the resolver outcome. -/
theorem empty_input_short_circuits (env : DictLoadOutcome) (m : Word2ipaModel) :
    (m.buffer = "" → update env m = ({ m with ipa_result := placeholderResult }, [])) ∧
    (m.buffer ≠ "" → (update env m).1.ipa_result =
        match word_to_ipa env m.buffer with
        | .ok ipa => ipa
        | .error e => "Error: " ++ e) := by
  constructor
  · intro hb
    simp [update, hb]
  · intro hb
    cases hw : word_to_ipa env m.buffer with
    | ok ipa => simp [update, hb, hw]
    | error e => simp [update, hb, hw]

/-- Claim C4 witness: the empty buffer short-circuits to the placeholder,
and a whitespace-only buffer reaches the resolver. -/
theorem empty_input_short_circuits_witness :
    update (.parsed ⟨[]⟩) ⟨"", "x", [], []⟩ =
      (⟨"", placeholderResult, [], []⟩, []) ∧
    (update (.parsed ⟨[[("hello", "h ə l oʊ")]]⟩) ⟨" ", "", [], []⟩).1.ipa_result =
      "Error: " ++ notFoundMsg " " :=
  ⟨(empty_input_short_circuits (.parsed ⟨[]⟩) ⟨"", "x", [], []⟩).1 rfl,
    (empty_input_short_circuits (.parsed ⟨[[("hello", "h ə l oʊ")]]⟩)
      ⟨" ", "", [], []⟩).2 (by decide)⟩

/-- Claim C5: whenever loading the symbol catalog fails, for any of the
three failure stages, initialization degrades to the empty catalog and
surfaces exactly one diagnostic naming the failure; the embedding of the
initialization is a total function, so no load outcome aborts the host. -/
theorem catalog_load_failure_degrades (env : CatalogLoadOutcome) (e : String)
    (h : load_ipa_entries env = .error e) :
    (ipaDictionaryInit env).1.entries = [] ∧
    (ipaDictionaryInit env).2 = ["Error loading IPA dictionary: " ++ e] := by
  simp [ipaDictionaryInit, h]

/-- Claim C5 witness: a missing catalog resource. -/
theorem catalog_load_failure_degrades_witness :
    (ipaDictionaryInit (.resourceError "not found")).1.entries = [] :=
  (catalog_load_failure_degrades (.resourceError "not found")
    ("Failed to load IPA resource: " ++ "not found") rfl).1

/-- Claim C6: rendering a catalog entry produces exactly one label for each
index below the minimum of the two example-list lengths, pairing the word
and the transcription at equal indices in input order; indices beyond the
shorter list are silently dropped and never accessed. -/
theorem render_pairs_by_zip (entry : IpaEntry) :
    (renderExampleLabels entry).length =
      min entry.examples.length entry.ipa_examples.length ∧
    ∀ (i : Nat) (w p : String),
      entry.examples[i]? = some w → entry.ipa_examples[i]? = some p →
        (renderExampleLabels entry)[i]? = some ("• " ++ w ++ " " ++ p) := by
  constructor
  · simp [renderExampleLabels, List.length_zip]
  · intro i w p hw hp
    obtain ⟨h1, hw2⟩ := List.getElem?_eq_some.mp hw
    obtain ⟨h2, hp2⟩ := List.getElem?_eq_some.mp hp
    have hz : i < (entry.examples.zip entry.ipa_examples).length := by
      rw [List.length_zip]
      exact lt_inf_iff.mpr ⟨h1, h2⟩
    rw [renderExampleLabels, List.getElem?_map, List.getElem?_eq_getElem hz]
    simp [List.getElem_zip, hw2, hp2]

/-- Claim C6 witness: the spec scenario with three example words and two
transcriptions renders exactly the first two pairs, in input order. -/
theorem render_pairs_by_zip_witness :
    (renderExampleLabels
        ⟨"ʃ", "sh", "voiceless postalveolar fricative",
          ["ship", "wish", "shoe"], ["ʃɪp", "wɪʃ"]⟩).length = min 3 2 ∧
    (renderExampleLabels
        ⟨"ʃ", "sh", "voiceless postalveolar fricative",
          ["ship", "wish", "shoe"], ["ʃɪp", "wɪʃ"]⟩)[1]? =
      some ("• " ++ "wish" ++ " " ++ "wɪʃ") :=
  ⟨(render_pairs_by_zip ⟨"ʃ", "sh", "voiceless postalveolar fricative",
      ["ship", "wish", "shoe"], ["ʃɪp", "wɪʃ"]⟩).1,
    (render_pairs_by_zip ⟨"ʃ", "sh", "voiceless postalveolar fricative",
      ["ship", "wish", "shoe"], ["ʃɪp", "wɪʃ"]⟩).2 1 "wish" "wɪʃ"
      (by decide) (by decide)⟩

/-- Claim C7: a parsed dictionary with zero entry blocks makes every query
yield the dictionary-format error, and that error string differs from every
error any of the three load stages can produce, so the caller can tell the
empty-dictionary case apart from the resource, encoding and JSON failures. -/
theorem empty_dictionary_error_distinct :
    (∀ (dict : Dictionary) (w : String), dict.entries = [] →
        word_to_ipa (.parsed dict) w = .error "Dictionary format error.") ∧
    (∀ (env : DictLoadOutcome) (e : String), loadDictionary env = .error e →
        e ≠ "Dictionary format error.") := by
  constructor
  · intro dict w hd
    simp [word_to_ipa, loadDictionary, resolveFirstBlock, hd]
  · intro env e he
    cases env with
    | resourceError msg =>
      simp only [loadDictionary, Except.error.injEq] at he
      rw [← he]
      exact (ne_append_of_head_ne msg (by decide) (by decide)).symm
    | utf8Error msg =>
      simp only [loadDictionary, Except.error.injEq] at he
      rw [← he]
      exact (ne_append_of_head_ne msg (by decide) (by decide)).symm
    | jsonError msg =>
      simp only [loadDictionary, Except.error.injEq] at he
      rw [← he]
      exact (ne_append_of_head_ne msg (by decide) (by decide)).symm
    | parsed dict =>
      simp [loadDictionary] at he

/-- Claim C7 witness: a concrete empty dictionary and a concrete failing
load stage. -/
theorem empty_dictionary_error_distinct_witness :
    word_to_ipa (.parsed ⟨[]⟩) "hello" = .error "Dictionary format error." ∧
    ("Failed to load resource: " ++ "oops") ≠ "Dictionary format error." :=
  ⟨empty_dictionary_error_distinct.1 ⟨[]⟩ "hello" rfl,
    empty_dictionary_error_distinct.2 (.resourceError "oops")
      ("Failed to load resource: " ++ "oops") rfl⟩

/-- Claim C8: a successfully parsed catalog that is the empty array loads
as the empty sequence of entries, not as an error, unlike the dictionary
resolver, for which a parsed dictionary with zero entry blocks is the
dictionary-format error on every query. -/
theorem empty_catalog_is_ok :
    load_ipa_entries (.parsed []) = .ok [] ∧
    ∀ w : String, word_to_ipa (.parsed ⟨[]⟩) w = .error "Dictionary format error." := by
  refine ⟨rfl, fun w => ?_⟩
  simp [word_to_ipa, loadDictionary, resolveFirstBlock]

/-- Claim C9: one handler step never removes or reorders history pairs: the
new history is always the old history followed by at most one pair; a
successful resolution appends exactly the (queried word, transcription)
pair, and the history grows only on a successful resolution. -/
theorem history_append_only (env : DictLoadOutcome) (m : Word2ipaModel) :
    (∃ t, (update env m).1.history = m.history ++ t ∧ t.length ≤ 1) ∧
    (∀ ipa, m.buffer ≠ "" → word_to_ipa env m.buffer = .ok ipa →
        (update env m).1.history = m.history ++ [(m.buffer, ipa)]) ∧
    ((update env m).1.history ≠ m.history →
        ∃ ipa, word_to_ipa env m.buffer = .ok ipa ∧
          (update env m).1.history = m.history ++ [(m.buffer, ipa)]) := by
  by_cases hb : m.buffer = ""
  · refine ⟨⟨[], by simp [update, hb], by simp⟩, ?_, ?_⟩
    · intro ipa hne
      exact absurd hb hne
    · intro hne
      exact absurd (by simp [update, hb]) hne
  · cases hw : word_to_ipa env m.buffer with
    | ok ipa =>
      refine ⟨⟨[(m.buffer, ipa)], by simp [update, hb, hw], by simp⟩, ?_, ?_⟩
      · intro ipa2 _ hw2
        cases hw2
        simp [update, hb, hw]
      · intro _
        exact ⟨ipa, rfl, by simp [update, hb, hw]⟩
    | error e =>
      refine ⟨⟨[], by simp [update, hb, hw], by simp⟩, ?_, ?_⟩
      · intro ipa _ hw2
        cases hw2
      · intro hne
        exact absurd (by simp [update, hb, hw]) hne

/-- Claim C9 witness: a successful lookup appends exactly one pair holding
the query as typed and its transcription. -/
theorem history_append_only_witness :
    (update (.parsed ⟨[[("hi", "h aɪ")]]⟩)
        ⟨"Hi", "", [("old", "o")], []⟩).1.history =
      [("old", "o")] ++ [("Hi", "h aɪ")] :=
  (history_append_only (.parsed ⟨[[("hi", "h aɪ")]]⟩)
      ⟨"Hi", "", [("old", "o")], []⟩).2.1 "h aɪ" (by decide) (by decide)

/-- Claim C10: when a handler step does not succeed, because the buffer is
empty or the resolution returns an error, the only model field that changes
is the displayed result string, set to the placeholder or to the error
message; the buffer, the history and the history rows are unchanged, and in
the error case the same message is emitted as a diagnostic. -/
theorem non_success_changes_only_result (env : DictLoadOutcome) (m : Word2ipaModel) :
    (m.buffer = "" →
        update env m = ({ m with ipa_result := placeholderResult }, [])) ∧
    (∀ e, m.buffer ≠ "" → word_to_ipa env m.buffer = .error e →
        update env m = ({ m with ipa_result := "Error: " ++ e }, ["error: " ++ e])) := by
  constructor
  · intro hb
    simp [update, hb]
  · intro e hb hw
    simp [update, hb, hw]

/-- Claim C10 witness: concrete empty-input and failed-resolution steps,
each leaving buffer, history and rows untouched. -/
theorem non_success_changes_only_result_witness :
    update (.parsed ⟨[[("hello", "h")]]⟩) ⟨"", "r", [("a", "b")], [("b", "a")]⟩ =
      (⟨"", placeholderResult, [("a", "b")], [("b", "a")]⟩, []) ∧
    update (.parsed ⟨[[("hello", "h")]]⟩) ⟨"zzz", "r", [("a", "b")], [("b", "a")]⟩ =
      (⟨"zzz", "Error: " ++ notFoundMsg "zzz", [("a", "b")], [("b", "a")]⟩,
        ["error: " ++ notFoundMsg "zzz"]) :=
  ⟨(non_success_changes_only_result (.parsed ⟨[[("hello", "h")]]⟩)
      ⟨"", "r", [("a", "b")], [("b", "a")]⟩).1 rfl,
    (non_success_changes_only_result (.parsed ⟨[[("hello", "h")]]⟩)
      ⟨"zzz", "r", [("a", "b")], [("b", "a")]⟩).2 (notFoundMsg "zzz")
      (by decide) (by decide)⟩
